import Mathlib

/-!
Robot arm control dashboard (`src/oop.c++`)

A shallow embedding of the four classes of `oop.c++` (`Product` /
`DefectiveProduct`, `RobotArm`, `VisionSystem`, `Dashboard`) and of `main`,
followed by theorems about them.

Conventions of the embedding.

* A method `void C::m(args)` becomes `C.m : C → args → C × String`: the object
  after the call, and the text the call writes to `cout` (`endl` is `"\n"`).
* `int` is `Int`. Signed overflow is undefined behaviour in C++, so the model
  covers the executions in which no `int` overflows. The operator `%` on `int`
  is the remainder of truncated division, `cRem`.
* `vector<T*>` with `push_back(new T(..))` is a `List T` that grows at the end;
  the collections own their records, so the pointer indirection carries no
  further state.
* Constructors are called `new`, the destructor of `RobotArm` is `dtor`.
* Line 129 calls the non-`const` member `display()` through a `const Product&`;
  the model gives the call its evident meaning, virtual dispatch on the object
  referred to.
-/

namespace RobotArmControl

/-! ## Language-level helpers -/

/-- The C++ operator `%` on `int`: the remainder of division truncated toward
zero (so `-2 % 3` is `-2`). -/
def cRem (a b : Int) : Int := Int.tmod a b

/-- The function `std::to_string` on `int`: decimal digits, `-` for a negative number. -/
def to_string (n : Int) : String := toString n

/-! ## `Product` and `DefectiveProduct` (lines 10-51) -/

/-- The class `Product`: `int id; string name`. -/
structure Product where
  id : Int
  name : String
deriving DecidableEq, Repr

/-- The method `Product::display` (lines 21-23): the line it writes. -/
def Product.display (p : Product) : String :=
  "Product #" ++ to_string p.id ++ ": " ++ p.name ++ "\n"

/-- The class `DefectiveProduct : public Product` with `string defectType`. -/
structure DefectiveProduct extends Product where
  defectType : String
deriving DecidableEq, Repr

/-- The override `DefectiveProduct::display` (lines 45-48). -/
def DefectiveProduct.display (p : DefectiveProduct) : String :=
  "DEFECTIVE Product #" ++ to_string p.id ++ ": " ++ p.name
    ++ " (Defect: " ++ p.defectType ++ ")" ++ "\n"

/-- What a `const Product&` can refer to: an object whose dynamic type is
`Product`, or one whose dynamic type is `DefectiveProduct`. -/
inductive ProductRef where
  | base (p : Product)
  | defective (p : DefectiveProduct)
deriving DecidableEq, Repr

/-- Virtual dispatch of `display()` through a reference to `Product`. -/
def ProductRef.display : ProductRef → String
  | .base p => p.display
  | .defective p => p.display

/-! ## `RobotArm` (lines 56-138) -/

/-- The private fields of `RobotArm`. -/
structure RobotArm where
  x : Int
  y : Int
  speed : Int
  isActive : Bool
  status : String
deriving DecidableEq, Repr

/-- The constructor `RobotArm::RobotArm()` (lines 65-67). -/
def RobotArm.new : RobotArm × String :=
  ({ x := 0, y := 0, speed := 0, isActive := false, status := "Idle" },
   "[ROBOT] Robot arm initialized at position (0, 0)\n")

/-- The method `RobotArm::start` (lines 78-82). -/
def RobotArm.start (r : RobotArm) : RobotArm × String :=
  ({ r with isActive := true, status := "Running" },
   "[ROBOT] Robot arm started!\n")

/-- The method `RobotArm::stop` (lines 85-90). -/
def RobotArm.stop (r : RobotArm) : RobotArm × String :=
  ({ r with isActive := false, speed := 0, status := "Stopped" },
   "[ROBOT] Robot arm stopped!\n")

/-- The method `RobotArm::emergencyStop` (lines 93-98). -/
def RobotArm.emergencyStop (r : RobotArm) : RobotArm × String :=
  ({ r with isActive := false, speed := 0, status := "EMERGENCY STOP" },
   "[ROBOT] !!! EMERGENCY STOP ACTIVATED !!!\n")

/-- The method `RobotArm::moveTo` (lines 101-110). -/
def RobotArm.moveTo (r : RobotArm) (new_x new_y : Int) : RobotArm × String :=
  if !r.isActive then
    (r, "[ROBOT] Cannot move - robot is not active!\n")
  else
    ({ r with x := new_x, y := new_y },
     "[ROBOT] Moved to position (" ++ to_string new_x ++ ", " ++ to_string new_y ++ ")" ++ "\n")

/-- The method `RobotArm::setSpeed` (lines 113-120). -/
def RobotArm.setSpeed (r : RobotArm) (new_speed : Int) : RobotArm × String :=
  if new_speed < 0 || new_speed > 100 then
    (r, "[ROBOT] Invalid speed! Must be 0-100\n")
  else
    ({ r with speed := new_speed },
     "[ROBOT] Speed set to " ++ to_string new_speed ++ "%" ++ "\n")

/-- The method `RobotArm::pickProduct` (lines 123-130). When the arm is active
the text is the prefix written by `pickProduct` followed by what
`product.display()` writes. -/
def RobotArm.pickProduct (r : RobotArm) (product : ProductRef) : RobotArm × String :=
  if !r.isActive then
    (r, "[ROBOT] Cannot pick - robot is not active!\n")
  else
    (r, "[ROBOT] Picked up: " ++ product.display)

/-- The destructor `RobotArm::~RobotArm` (lines 70-75). -/
def RobotArm.dtor (r : RobotArm) : RobotArm × String :=
  let r1 := if r.isActive then r.stop else (r, "")
  (r1.1, r1.2 ++ "[ROBOT] Robot arm shut down safely\n")

/-! ## `VisionSystem` (lines 143-186) -/

/-- The private fields of `VisionSystem`. -/
structure VisionSystem where
  isCalibrated : Bool
  detectionCount : Int
deriving DecidableEq, Repr

/-- The constructor `VisionSystem::VisionSystem()` (lines 149-151). -/
def VisionSystem.new : VisionSystem × String :=
  ({ isCalibrated := false, detectionCount := 0 }, "[VISION] Vision system initialized\n")

/-- The method `VisionSystem::calibrate` (lines 153-156). -/
def VisionSystem.calibrate (v : VisionSystem) : VisionSystem × String :=
  ({ v with isCalibrated := true }, "[VISION] Camera calibrated successfully\n")

/-- Everything a call of `detectProduct(string& detectedName)` leaves behind:
the object, the out-parameter, the returned `bool` and the text written. -/
structure Detection where
  vision : VisionSystem
  detectedName : String
  found : Bool
  out : String
deriving DecidableEq, Repr

/-- The method `VisionSystem::detectProduct` (lines 159-182). The argument
`detectedName` is the caller's string as it is before the call; the refusal
path does not assign it. -/
def VisionSystem.detectProduct (v : VisionSystem) (detectedName : String) : Detection :=
  if !v.isCalibrated then
    { vision := v, detectedName := detectedName, found := false,
      out := "[VISION] Error: Camera not calibrated!\n" }
  else
    let detectionCount := v.detectionCount + 1
    let v1 : VisionSystem := { v with detectionCount := detectionCount }
    if cRem detectionCount 3 = 0 then
      { vision := v1, detectedName := "Good Product", found := true,
        out := "[VISION] Detected: Good Product\n" }
    else if cRem detectionCount 3 = 1 then
      { vision := v1, detectedName := "Defective Product", found := true,
        out := "[VISION] Detected: Defective Product (Scratched)\n" }
    else
      { vision := v1, detectedName := "Unknown", found := false,
        out := "[VISION] Detected: Unknown object (possibly hand)\n" }

/-! ## `Dashboard` (lines 191-295) -/

/-- The private fields of `Dashboard`. -/
structure Dashboard where
  robot : RobotArm
  vision : VisionSystem
  goodProducts : List Product
  badProducts : List DefectiveProduct
  totalProcessed : Int
deriving DecidableEq, Repr

/-- The constructor `Dashboard::Dashboard()` (lines 200-204): the members are
constructed in declaration order, then the banner is written. -/
def Dashboard.new : Dashboard × String :=
  ({ robot := RobotArm.new.1, vision := VisionSystem.new.1,
     goodProducts := [], badProducts := [], totalProcessed := 0 },
   RobotArm.new.2 ++ VisionSystem.new.2
     ++ "\n========================================\n"
     ++ "   ROBOT ARM CONTROL DASHBOARD v1.0\n"
     ++ "========================================\n\n")

/-- The method `Dashboard::initialize` (lines 217-221). -/
def Dashboard.initialize (d : Dashboard) : Dashboard × String :=
  let c := d.vision.calibrate
  ({ d with vision := c.1 },
   "[DASHBOARD] Initializing system...\n" ++ c.2 ++ "[DASHBOARD] System ready!\n")

/-- The method `Dashboard::startProduction` (lines 223-227). -/
def Dashboard.startProduction (d : Dashboard) : Dashboard × String :=
  let r1 := d.robot.start
  let r2 := r1.1.setSpeed 50
  ({ d with robot := r2.1 }, "\n[DASHBOARD] Starting production...\n" ++ r1.2 ++ r2.2)

/-- The method `Dashboard::processProduct` (lines 229-262). -/
def Dashboard.processProduct (d : Dashboard) : Dashboard × String :=
  let det := d.vision.detectProduct ""
  if det.found then
    let totalProcessed := d.totalProcessed + 1
    if det.detectedName = "Good Product" then
      let product : Product :=
        { id := totalProcessed, name := "Widget-" ++ to_string totalProcessed }
      let m1 := d.robot.moveTo 100 50
      let m2 := m1.1.pickProduct (.base product)
      let m3 := m2.1.moveTo 200 50
      ({ robot := m3.1, vision := det.vision,
         goodProducts := d.goodProducts ++ [product],
         badProducts := d.badProducts, totalProcessed := totalProcessed },
       det.out ++ m1.2 ++ m2.2 ++ m3.2 ++ "[DASHBOARD] Placed on good products board\n")
    else if det.detectedName = "Defective Product" then
      let product : DefectiveProduct :=
        { id := totalProcessed, name := "Defect-" ++ to_string totalProcessed,
          defectType := "Surface scratch" }
      let m1 := d.robot.moveTo 100 50
      let m2 := m1.1.pickProduct (.defective product)
      let m3 := m2.1.moveTo 200 100
      ({ robot := m3.1, vision := det.vision,
         goodProducts := d.goodProducts,
         badProducts := d.badProducts ++ [product], totalProcessed := totalProcessed },
       det.out ++ m1.2 ++ m2.2 ++ m3.2 ++ "[DASHBOARD] Placed on defective products board\n")
    else
      ({ d with vision := det.vision, totalProcessed := totalProcessed }, det.out)
  else
    ({ d with vision := det.vision }, det.out ++ "[DASHBOARD] Ignoring unknown object\n")

/-- The method `Dashboard::showStatistics` (lines 264-275). -/
def Dashboard.showStatistics (d : Dashboard) : Dashboard × String :=
  (d, "\n========================================\n"
      ++ "         PRODUCTION STATISTICS\n"
      ++ "========================================\n"
      ++ "Total processed: " ++ to_string d.totalProcessed ++ "\n"
      ++ "Good products: " ++ toString d.goodProducts.length ++ "\n"
      ++ "Defective products: " ++ toString d.badProducts.length ++ "\n"
      ++ "Robot status: " ++ d.robot.status ++ "\n"
      ++ "Robot position: (" ++ to_string d.robot.x ++ ", " ++ to_string d.robot.y ++ ")" ++ "\n"
      ++ "Detections: " ++ to_string d.vision.detectionCount ++ "\n"
      ++ "========================================\n\n")

/-- The method `Dashboard::showGoodProducts` (lines 277-282). -/
def Dashboard.showGoodProducts (d : Dashboard) : Dashboard × String :=
  (d, d.goodProducts.foldl (fun acc product => acc ++ product.display) "\nGOOD PRODUCTS:\n")

/-- The method `Dashboard::showDefectiveProducts` (lines 284-289). -/
def Dashboard.showDefectiveProducts (d : Dashboard) : Dashboard × String :=
  (d, d.badProducts.foldl (fun acc product => acc ++ product.display) "\nDEFECTIVE PRODUCTS:\n")

/-- The method `Dashboard::shutdown` (lines 291-294). -/
def Dashboard.shutdown (d : Dashboard) : Dashboard × String :=
  let r := d.robot.stop
  ({ d with robot := r.1 }, "\n[DASHBOARD] Shutting down system...\n" ++ r.2)

/-! ## Repeated calls and `main` (lines 300-330) -/

/-- The detector after `k` consecutive calls of `detectProduct`. The object
after a call does not depend on the caller's string, so the empty string of
`Dashboard::processProduct` is passed. -/
def VisionSystem.detectRepeated (v : VisionSystem) : Nat → VisionSystem
  | 0 => v
  | k + 1 => ((v.detectRepeated k).detectProduct "").vision

/-- The results of `k` consecutive calls of `detectProduct`, in call order. -/
def VisionSystem.detections (v : VisionSystem) (k : Nat) : List Detection :=
  (List.range k).map (fun i => (v.detectRepeated i).detectProduct "")

/-- The pair `(found, name)` of a detection. -/
def Detection.outcome (t : Detection) : Bool × String := (t.found, t.detectedName)

/-- The dashboard after `k` consecutive calls of `processProduct`. -/
def Dashboard.processRepeated (d : Dashboard) : Nat → Dashboard
  | 0 => d
  | k + 1 => (d.processRepeated k).processProduct.1

/-- The loop of `main` (lines 312-315), from iteration `i` on, with `fuel`
bounding the number of iterations that remain to be run. -/
def mainLoop (fuel : Nat) (i : Int) (s : Dashboard × String) : Dashboard × String :=
  match fuel with
  | 0 => s
  | fuel + 1 =>
    if i < 5 then
      let p := s.1.processProduct
      mainLoop fuel (i + 1) (p.1, s.2 ++ "\n--- Item " ++ to_string (i + 1) ++ " ---\n" ++ p.2)
    else s

/-- The state of `main` when its loop has ended (line 316): the dashboard and
the text written so far. -/
def mainAfterLoop : Dashboard × String :=
  let d0 := Dashboard.new
  let d1 := Dashboard.initialize d0.1
  let d2 := d1.1.startProduction
  mainLoop 5 0 (d2.1, d0.2 ++ d1.2 ++ d2.2 ++ "\n--- Processing products ---\n\n")

/-- The function `main` (lines 300-330) up to its `return 0`: the dashboard as
it is when `main` returns, the text written, and the exit status. -/
def main : Dashboard × String × Int :=
  let s := mainAfterLoop
  let t1 := s.1.showStatistics
  let t2 := t1.1.showGoodProducts
  let t3 := t2.1.showDefectiveProducts
  let t4 := t3.1.shutdown
  (t4.1, s.2 ++ t1.2 ++ t2.2 ++ t3.2 ++ t4.2 ++ "\n[SYSTEM] Program completed successfully\n", 0)

/-- The public operations of `Dashboard`, as a caller can invoke them. -/
inductive DashboardOp where
  | init
  | start
  | process
  | stats
  | listGood
  | listDefective
  | shutdown
deriving DecidableEq, Repr

/-- One public operation applied to a dashboard. -/
def Dashboard.step (d : Dashboard) : DashboardOp → Dashboard × String
  | .init => Dashboard.initialize d
  | .start => d.startProduction
  | .process => d.processProduct
  | .stats => d.showStatistics
  | .listGood => d.showGoodProducts
  | .listDefective => d.showDefectiveProducts
  | .shutdown => d.shutdown

/-- A finite sequence of public operations applied in order. -/
def Dashboard.run (d : Dashboard) : List DashboardOp → Dashboard
  | [] => d
  | op :: ops => (d.step op).1.run ops

/-- The scenario of `main`: construction, `initialize()`, `startProduction()`. -/
def productionStart : Dashboard :=
  ( Dashboard.initialize Dashboard.new.1).1.startProduction.1

/-- The body of `Dashboard::processProduct` (lines 232-261) as a function of what
the call `vision.detectProduct(detectedName)` left behind: the test of the
returned `bool`, the increment, and the two comparisons of `detectedName`. -/
def Dashboard.route (d : Dashboard) (det : Detection) : Dashboard × String :=
  if det.found then
    let totalProcessed := d.totalProcessed + 1
    if det.detectedName = "Good Product" then
      let product : Product :=
        { id := totalProcessed, name := "Widget-" ++ to_string totalProcessed }
      let m1 := d.robot.moveTo 100 50
      let m2 := m1.1.pickProduct (.base product)
      let m3 := m2.1.moveTo 200 50
      ({ robot := m3.1, vision := det.vision,
         goodProducts := d.goodProducts ++ [product],
         badProducts := d.badProducts, totalProcessed := totalProcessed },
       det.out ++ m1.2 ++ m2.2 ++ m3.2 ++ "[DASHBOARD] Placed on good products board\n")
    else if det.detectedName = "Defective Product" then
      let product : DefectiveProduct :=
        { id := totalProcessed, name := "Defect-" ++ to_string totalProcessed,
          defectType := "Surface scratch" }
      let m1 := d.robot.moveTo 100 50
      let m2 := m1.1.pickProduct (.defective product)
      let m3 := m2.1.moveTo 200 100
      ({ robot := m3.1, vision := det.vision,
         goodProducts := d.goodProducts,
         badProducts := d.badProducts ++ [product], totalProcessed := totalProcessed },
       det.out ++ m1.2 ++ m2.2 ++ m3.2 ++ "[DASHBOARD] Placed on defective products board\n")
    else
      ({ d with vision := det.vision, totalProcessed := totalProcessed }, det.out)
  else
    ({ d with vision := det.vision }, det.out ++ "[DASHBOARD] Ignoring unknown object\n")

/-- The public operations of `RobotArm` that change or use its state, with
their arguments. -/
inductive RobotOp where
  | start
  | stop
  | emergencyStop
  | moveTo (new_x new_y : Int)
  | setSpeed (new_speed : Int)
  | pickProduct (product : ProductRef)
deriving DecidableEq, Repr

/-- One public operation applied to a manipulator. -/
def RobotArm.step (r : RobotArm) : RobotOp → RobotArm × String
  | .start => r.start
  | .stop => r.stop
  | .emergencyStop => r.emergencyStop
  | .moveTo new_x new_y => r.moveTo new_x new_y
  | .setSpeed new_speed => r.setSpeed new_speed
  | .pickProduct product => r.pickProduct product

/-- A finite sequence of public operations applied in order. -/
def RobotArm.run (r : RobotArm) : List RobotOp → RobotArm
  | [] => r
  | op :: ops => (r.step op).1.run ops

/-! ## Lemmas on the detector -/

/-- A calibrated detector advances its counter by one on every call and stays calibrated. -/
theorem detectProduct_vision_of_calibrated (v : VisionSystem) (s : String)
    (h : v.isCalibrated = true) :
    (v.detectProduct s).vision = { v with detectionCount := v.detectionCount + 1 } := by
  unfold VisionSystem.detectProduct
  simp only [h, Bool.not_true, Bool.false_eq_true, if_false]
  split
  · rfl
  · split <;> rfl

/-- An uncalibrated detector is not changed by a call. -/
theorem detectProduct_vision_of_uncalibrated (v : VisionSystem) (s : String)
    (h : v.isCalibrated = false) :
    (v.detectProduct s).vision = v := by
  unfold VisionSystem.detectProduct
  simp [h]

/-- The detector object after a call does not depend on the caller's string. -/
theorem detectProduct_vision_indep (v : VisionSystem) (s t : String) :
    (v.detectProduct s).vision = (v.detectProduct t).vision := by
  cases h : v.isCalibrated
  · rw [detectProduct_vision_of_uncalibrated v s h, detectProduct_vision_of_uncalibrated v t h]
  · rw [detectProduct_vision_of_calibrated v s h, detectProduct_vision_of_calibrated v t h]

/-- Calls on an uncalibrated detector never change it. -/
theorem detectRepeated_of_uncalibrated (v : VisionSystem) (h : v.isCalibrated = false)
    (k : Nat) : v.detectRepeated k = v := by
  induction k with
  | zero => rfl
  | succ k ih => rw [VisionSystem.detectRepeated, ih, detectProduct_vision_of_uncalibrated _ _ h]

/-- C3. An uncalibrated detector returns `found = false` and is left as it was
(counter and calibration flag); so after any number of calls it is still as it
was, and the counter of a freshly constructed detector that was never
calibrated stays at its initial value 0. -/
theorem detectProduct_uncalibrated (v : VisionSystem) (s : String)
    (h : v.isCalibrated = false) :
    (v.detectProduct s).found = false
    ∧ (v.detectProduct s).vision = v
    ∧ (∀ k : Nat, v.detectRepeated k = v)
    ∧ (∀ k : Nat, (VisionSystem.new.1.detectRepeated k).detectionCount = 0) := by
  refine ⟨?_, detectProduct_vision_of_uncalibrated v s h,
    detectRepeated_of_uncalibrated v h, ?_⟩
  · simp [VisionSystem.detectProduct, h]
  · intro k
    rw [detectRepeated_of_uncalibrated _ rfl k]
    rfl

/-- Witness for C3: an uncalibrated detector whose counter is 7. -/
theorem detectProduct_uncalibrated_witness :
    (VisionSystem.mk false 7).isCalibrated = false
    ∧ ((VisionSystem.mk false 7).detectProduct "x").found = false
    ∧ ((VisionSystem.mk false 7).detectProduct "x").vision = VisionSystem.mk false 7 :=
  ⟨rfl, (detectProduct_uncalibrated ⟨false, 7⟩ "x" rfl).1,
    (detectProduct_uncalibrated ⟨false, 7⟩ "x" rfl).2.1⟩

/-! ## Lemmas on the dashboard -/

/-- C4, counterexample. After construction, `initialize()`, `startProduction()`
and five calls of `processProduct()` the detector outcomes are not Good,
Defective, Unknown, Good, Defective, the processed count is 3 and not 4, and the
good collection has 1 record and not 2. -/
theorem scenario_counts_not_as_claimed :
    ¬ ((productionStart.vision.detections 5).map Detection.outcome
          = [(true, "Good Product"), (true, "Defective Product"), (false, "Unknown"),
             (true, "Good Product"), (true, "Defective Product")]
        ∧ (productionStart.processRepeated 5).totalProcessed = 4
        ∧ (productionStart.processRepeated 5).goodProducts.length = 2
        ∧ (productionStart.processRepeated 5).badProducts.length = 2
        ∧ (productionStart.processRepeated 5).vision.detectionCount = 5)
    ∧ (productionStart.processRepeated 5).totalProcessed ≠ 4
    ∧ (productionStart.processRepeated 5).goodProducts.length ≠ 2 := by
  decide

/-- C4, amended. After construction, `initialize()`, `startProduction()` and
five calls of `processProduct()` (the state `main` is in when its loop ends) the
detector outcomes are, in order, Defective, Unknown (ignored), Good, Defective,
Unknown (ignored); the processed count is 3, the good collection has 1 record,
the defective collection has 2 records and the detection count is 5. -/
theorem scenario_counts :
    mainAfterLoop.1 = productionStart.processRepeated 5
    ∧ (productionStart.vision.detections 5).map Detection.outcome
        = [(true, "Defective Product"), (false, "Unknown"), (true, "Good Product"),
           (true, "Defective Product"), (false, "Unknown")]
    ∧ (productionStart.processRepeated 5).totalProcessed = 3
    ∧ (productionStart.processRepeated 5).goodProducts.length = 1
    ∧ (productionStart.processRepeated 5).badProducts.length = 2
    ∧ (productionStart.processRepeated 5).vision.detectionCount = 5 := by
  decide

/-- C5. In the scenario (construction, `initialize()`, `startProduction()`, five
calls of `processProduct()`) the arm ends at `(200, 100)`, the defective bin:
the last detection that reported a product named a defective one, the record
filed last (its id is the processed count) is the last of the defective
collection, and the arm is where one call of `processProduct` on a defective
product leaves it. -/
theorem scenario_final_position :
    ((productionStart.processRepeated 5).robot.x, (productionStart.processRepeated 5).robot.y)
        = (200, 100)
    ∧ (mainAfterLoop.1.robot.x, mainAfterLoop.1.robot.y) = (200, 100)
    ∧ (((productionStart.vision.detections 5).filter (fun t => t.found)).getLast?).map
          Detection.detectedName = some "Defective Product"
    ∧ ((productionStart.processRepeated 5).badProducts.getLast?).map (fun p => p.id)
          = some (productionStart.processRepeated 5).totalProcessed
    ∧ (productionStart.processRepeated 5).robot
          = (productionStart.processRepeated 3).processProduct.1.robot
    ∧ ((productionStart.processRepeated 3).vision.detectProduct "").outcome
          = (true, "Defective Product") := by
  decide

/-- The line of `Product::display` starts with the letter `P`. -/
theorem product_display_head (p : Product) :
    ∃ rest, p.display.data = 'P' :: rest := by
  refine ⟨("roduct #" ++ to_string p.id ++ ": " ++ p.name ++ "\n").data, ?_⟩
  simp only [Product.display, String.data_append]
  rfl

/-- The line of `DefectiveProduct::display` starts with the letter `D`. -/
theorem defectiveProduct_display_head (p : DefectiveProduct) :
    ∃ rest, p.display.data = 'D' :: rest := by
  refine ⟨("EFECTIVE Product #" ++ to_string p.id ++ ": " ++ p.name
    ++ " (Defect: " ++ p.defectType ++ ")" ++ "\n").data, ?_⟩
  simp only [DefectiveProduct.display, String.data_append]
  rfl

/-- A text whose first character does not occur in `l` is no part of `l`. -/
theorem not_isInfix_of_head_not_mem {c : Char} {rest l : List Char} (h : c ∉ l) :
    ¬ List.IsInfix (c :: rest) l := by
  intro hi
  exact h (hi.subset (List.mem_cons_self c rest))

/-! ## Claims on the manipulator -/

/-- C8. For every manipulator state, active or not, and every `v` with `v < 0`
or `v > 100`, `setSpeed(v)` leaves the speed and every other field as they were. -/
theorem setSpeed_out_of_range (r : RobotArm) (v : Int) (h : v < 0 ∨ 100 < v) :
    (r.setSpeed v).1.speed = r.speed ∧ (r.setSpeed v).1 = r := by
  have hc : (decide (v < 0) || decide (v > 100)) = true := by
    rcases h with h | h <;> simp [h]
  unfold RobotArm.setSpeed
  rw [if_pos hc]
  exact ⟨rfl, rfl⟩

/-- Witness for C8: speed 101 on an active arm that runs at speed 50. -/
theorem setSpeed_out_of_range_witness :
    ((101 : Int) < 0 ∨ (100 : Int) < 101)
    ∧ ((RobotArm.mk 3 4 50 true "Running").setSpeed 101).1 = RobotArm.mk 3 4 50 true "Running" :=
  ⟨Or.inr (by decide),
    (setSpeed_out_of_range (RobotArm.mk 3 4 50 true "Running") 101 (Or.inr (by decide))).2⟩

/-- C9. For every manipulator state, `stop()` and `emergencyStop()` both give a
state with speed 0 and `isActive = false`, with the position as it was. -/
theorem stop_emergencyStop (r : RobotArm) :
    (r.stop.1.speed = 0 ∧ r.stop.1.isActive = false
      ∧ r.stop.1.x = r.x ∧ r.stop.1.y = r.y)
    ∧ (r.emergencyStop.1.speed = 0 ∧ r.emergencyStop.1.isActive = false
      ∧ r.emergencyStop.1.x = r.x ∧ r.emergencyStop.1.y = r.y) :=
  ⟨⟨rfl, rfl, rfl, rfl⟩, ⟨rfl, rfl, rfl, rfl⟩⟩

/-- C10. For every inactive manipulator, every target and every product,
`moveTo` and `pickProduct` leave the whole manipulator state (the position in
particular) as it was; `pickProduct` writes its refusal line only, and the text
that `display()` of the product would write is no part of what is written. -/
theorem inactive_moveTo_pickProduct (r : RobotArm) (x y : Int) (product : ProductRef)
    (h : r.isActive = false) :
    (r.moveTo x y).1 = r
    ∧ ((r.moveTo x y).1.x = r.x ∧ (r.moveTo x y).1.y = r.y)
    ∧ (r.pickProduct product).1 = r
    ∧ (r.pickProduct product).2 = "[ROBOT] Cannot pick - robot is not active!\n"
    ∧ ¬ List.IsInfix product.display.data (r.pickProduct product).2.data := by
  have hm : (r.moveTo x y).1 = r := by simp [RobotArm.moveTo, h]
  have hp : r.pickProduct product = (r, "[ROBOT] Cannot pick - robot is not active!\n") := by
    simp [RobotArm.pickProduct, h]
  refine ⟨hm, ⟨by rw [hm], by rw [hm]⟩, by rw [hp], by rw [hp], ?_⟩
  rw [hp]
  show ¬ List.IsInfix product.display.data "[ROBOT] Cannot pick - robot is not active!\n".data
  cases product with
  | base p =>
    obtain ⟨rest, hr⟩ := product_display_head p
    show ¬ List.IsInfix p.display.data _
    rw [hr]
    exact not_isInfix_of_head_not_mem (by decide)
  | defective p =>
    obtain ⟨rest, hr⟩ := defectiveProduct_display_head p
    show ¬ List.IsInfix p.display.data _
    rw [hr]
    exact not_isInfix_of_head_not_mem (by decide)

/-- Witness for C10: a stopped arm at `(200, 100)` and the product `Widget-1`. -/
theorem inactive_moveTo_pickProduct_witness :
    (RobotArm.mk 200 100 0 false "Stopped").isActive = false
    ∧ ((RobotArm.mk 200 100 0 false "Stopped").moveTo 100 50).1
        = RobotArm.mk 200 100 0 false "Stopped"
    ∧ ((RobotArm.mk 200 100 0 false "Stopped").pickProduct
          (ProductRef.base (Product.mk 1 "Widget-1"))).1
        = RobotArm.mk 200 100 0 false "Stopped" :=
  ⟨rfl,
    (inactive_moveTo_pickProduct (RobotArm.mk 200 100 0 false "Stopped") 100 50
      (ProductRef.base (Product.mk 1 "Widget-1")) rfl).1,
    (inactive_moveTo_pickProduct (RobotArm.mk 200 100 0 false "Stopped") 100 50
      (ProductRef.base (Product.mk 1 "Widget-1")) rfl).2.2.1⟩

/-! ## Lemmas on routing and identifiers -/

/-- The method `processProduct` is the routing step applied to the result of
`detectProduct` on an empty string. -/
theorem processProduct_eq_route (d : Dashboard) :
    d.processProduct = d.route (d.vision.detectProduct "") := rfl

/-- C12. When the next detector outcome has `found = false` (the detector is
not calibrated, or the cycle is at its Unknown step), `processProduct` leaves
the processed count, both collections and the manipulator as they were: only
the detector member takes the state the detector call left. -/
theorem processProduct_not_found (d : Dashboard)
    (h : (d.vision.detectProduct "").found = false) :
    d.processProduct.1.totalProcessed = d.totalProcessed
    ∧ d.processProduct.1.goodProducts = d.goodProducts
    ∧ d.processProduct.1.badProducts = d.badProducts
    ∧ d.processProduct.1.robot = d.robot
    ∧ d.processProduct.1 = { d with vision := (d.vision.detectProduct "").vision } := by
  have he : d.processProduct.1 = { d with vision := (d.vision.detectProduct "").vision } := by
    rw [processProduct_eq_route]
    unfold Dashboard.route
    simp [h]
  rw [he]
  exact ⟨rfl, rfl, rfl, rfl, rfl⟩

/-- Witness for C12: the Unknown step (second call of the scenario) and an
uncalibrated dashboard. -/
theorem processProduct_not_found_witness :
    ((productionStart.processRepeated 1).vision.detectProduct "").found = false
    ∧ (productionStart.processRepeated 1).processProduct.1.totalProcessed
        = (productionStart.processRepeated 1).totalProcessed
    ∧ (Dashboard.new.1.vision.detectProduct "").found = false
    ∧ Dashboard.new.1.processProduct.1.robot = Dashboard.new.1.robot :=
  ⟨by decide, (processProduct_not_found (productionStart.processRepeated 1) (by decide)).1,
    by decide, (processProduct_not_found Dashboard.new.1 (by decide)).2.2.2.1⟩

/-- An active manipulator moves to exactly the target; nothing else changes. -/
theorem moveTo_of_active (r : RobotArm) (x y : Int) (h : r.isActive = true) :
    (r.moveTo x y).1 = { r with x := x, y := y } := by
  simp [RobotArm.moveTo, h]

/-- An inactive manipulator does not move. -/
theorem moveTo_of_inactive (r : RobotArm) (x y : Int) (h : r.isActive = false) :
    (r.moveTo x y).1 = r := by
  simp [RobotArm.moveTo, h]

/-- The method `pickProduct` never changes the manipulator. -/
theorem pickProduct_state (r : RobotArm) (product : ProductRef) :
    (r.pickProduct product).1 = r := by
  unfold RobotArm.pickProduct
  split <;> rfl

/-- Every operation of the manipulator keeps the speed within 0..100. -/
theorem step_speed_range (r : RobotArm) (op : RobotOp)
    (h : 0 ≤ r.speed ∧ r.speed ≤ 100) :
    0 ≤ (r.step op).1.speed ∧ (r.step op).1.speed ≤ 100 := by
  cases op with
  | start => exact h
  | stop => exact ⟨le_refl (0 : Int), show (0 : Int) ≤ 100 by decide⟩
  | emergencyStop => exact ⟨le_refl (0 : Int), show (0 : Int) ≤ 100 by decide⟩
  | moveTo x y =>
    show 0 ≤ (r.moveTo x y).1.speed ∧ (r.moveTo x y).1.speed ≤ 100
    cases ha : r.isActive
    · rw [moveTo_of_inactive r x y ha]; exact h
    · rw [moveTo_of_active r x y ha]; exact h
  | setSpeed v =>
    show 0 ≤ (r.setSpeed v).1.speed ∧ (r.setSpeed v).1.speed ≤ 100
    unfold RobotArm.setSpeed
    split
    · exact h
    · rename_i hg
      simp only [Bool.or_eq_true, decide_eq_true_eq, not_or, not_lt] at hg
      exact ⟨hg.1, hg.2⟩
  | pickProduct product =>
    show 0 ≤ (r.pickProduct product).1.speed ∧ (r.pickProduct product).1.speed ≤ 100
    rw [pickProduct_state]; exact h

/-! ## Claims on teardown, routing and the manipulator -/

/-- C14. The destructor of a manipulator that is still active performs `stop()`:
the state after it has `isActive = false` and speed 0 (it is the state `stop()`
gives). The destructor of an inactive manipulator changes no field. -/
theorem dtor_stops_active (r : RobotArm) :
    (r.isActive = true →
      r.dtor.1.isActive = false ∧ r.dtor.1.speed = 0 ∧ r.dtor.1 = r.stop.1)
    ∧ (r.isActive = false → r.dtor.1 = r) := by
  constructor
  · intro h
    have he : r.dtor.1 = r.stop.1 := by simp [RobotArm.dtor, h]
    rw [he]
    exact ⟨rfl, rfl, rfl⟩
  · intro h
    simp [RobotArm.dtor, h]

/-- Witness for C14: a running arm at speed 50, and a freshly constructed arm. -/
theorem dtor_stops_active_witness :
    (RobotArm.mk 200 100 50 true "Running").isActive = true
    ∧ (RobotArm.mk 200 100 50 true "Running").dtor.1.speed = 0
    ∧ (RobotArm.mk 200 100 50 true "Running").dtor.1.isActive = false
    ∧ RobotArm.new.1.isActive = false
    ∧ RobotArm.new.1.dtor.1 = RobotArm.new.1 :=
  ⟨rfl, ((dtor_stops_active (RobotArm.mk 200 100 50 true "Running")).1 rfl).2.1,
    ((dtor_stops_active (RobotArm.mk 200 100 50 true "Running")).1 rfl).1,
    rfl, (dtor_stops_active RobotArm.new.1).2 rfl⟩

/-- C16. When the manipulator of the dashboard is active, a `processProduct`
whose detector outcome is Good leaves it at the good bin `(200, 50)`, and one
whose outcome is Defective leaves it at the defective bin `(200, 100)`; the two
bins differ, and the speed and the active flag (and the status label) are as
before the call. -/
theorem processProduct_active_position (d : Dashboard) (h : d.robot.isActive = true) :
    ((d.vision.detectProduct "").outcome = (true, "Good Product") →
      (d.processProduct.1.robot.x, d.processProduct.1.robot.y) = (200, 50)
      ∧ d.processProduct.1.robot.speed = d.robot.speed
      ∧ d.processProduct.1.robot.isActive = d.robot.isActive
      ∧ d.processProduct.1.robot.status = d.robot.status)
    ∧ ((d.vision.detectProduct "").outcome = (true, "Defective Product") →
      (d.processProduct.1.robot.x, d.processProduct.1.robot.y) = (200, 100)
      ∧ d.processProduct.1.robot.speed = d.robot.speed
      ∧ d.processProduct.1.robot.isActive = d.robot.isActive
      ∧ d.processProduct.1.robot.status = d.robot.status)
    ∧ ((200 : Int), (50 : Int)) ≠ ((200 : Int), (100 : Int)) := by
  have hmove : ∀ (product : ProductRef) (x y : Int),
      (((d.robot.moveTo 100 50).1.pickProduct product).1.moveTo x y).1
        = { d.robot with x := x, y := y } := by
    intro product x y
    have h2 : ({ d.robot with x := 100, y := 50 } : RobotArm).isActive = true := h
    rw [pickProduct_state, moveTo_of_active d.robot 100 50 h, moveTo_of_active _ x y h2]
  refine ⟨?_, ?_, by decide⟩
  · intro ho
    have hf : (d.vision.detectProduct "").found = true := congrArg Prod.fst ho
    have hn : (d.vision.detectProduct "").detectedName = "Good Product" := congrArg Prod.snd ho
    rw [processProduct_eq_route]
    unfold Dashboard.route
    dsimp only
    rw [if_pos hf, if_pos hn]
    dsimp only
    rw [hmove]
    exact ⟨rfl, rfl, rfl, rfl⟩
  · intro ho
    have hf : (d.vision.detectProduct "").found = true := congrArg Prod.fst ho
    have hn : (d.vision.detectProduct "").detectedName = "Defective Product" :=
      congrArg Prod.snd ho
    have hne : ¬ (d.vision.detectProduct "").detectedName = "Good Product" := by
      rw [hn]; decide
    rw [processProduct_eq_route]
    unfold Dashboard.route
    dsimp only
    rw [if_pos hf, if_neg hne, if_pos hn]
    dsimp only
    rw [hmove]
    exact ⟨rfl, rfl, rfl, rfl⟩

/-- Witness for C16: the third call of the scenario (Good) and the first (Defective). -/
theorem processProduct_active_position_witness :
    (productionStart.processRepeated 2).robot.isActive = true
    ∧ ((productionStart.processRepeated 2).processProduct.1.robot.x,
        (productionStart.processRepeated 2).processProduct.1.robot.y) = (200, 50)
    ∧ productionStart.robot.isActive = true
    ∧ (productionStart.processProduct.1.robot.x, productionStart.processProduct.1.robot.y)
        = (200, 100) :=
  ⟨by decide,
    ((processProduct_active_position (productionStart.processRepeated 2) (by decide)).1
      (by decide)).1,
    by decide,
    ((processProduct_active_position productionStart (by decide)).2.1 (by decide)).1⟩

/-- C17. In every manipulator state reached from the constructed one (position
`(0, 0)`, speed 0, inactive) by a finite sequence of `start`, `stop`,
`emergencyStop`, `moveTo`, `setSpeed` (with arbitrary integer arguments) and
`pickProduct`, the speed is within 0..100. -/
theorem run_speed_range (ops : List RobotOp) :
    0 ≤ (RobotArm.new.1.run ops).speed ∧ (RobotArm.new.1.run ops).speed ≤ 100 := by
  have key : ∀ (l : List RobotOp) (r : RobotArm), 0 ≤ r.speed ∧ r.speed ≤ 100 →
      0 ≤ (r.run l).speed ∧ (r.run l).speed ≤ 100 := by
    intro l
    induction l with
    | nil => intro r hr; exact hr
    | cons op l ih => intro r hr; exact ih _ (step_speed_range r op hr)
  exact key ops RobotArm.new.1 (by decide)

/-- C18. For every active manipulator and all integers `x`, `y` (negative ones
included, there is no bounds check), `moveTo(x, y)` sets the position to exactly
`(x, y)` and leaves the speed, the active flag and the status label as they were. -/
theorem moveTo_active (r : RobotArm) (x y : Int) (h : r.isActive = true) :
    ((r.moveTo x y).1.x, (r.moveTo x y).1.y) = (x, y)
    ∧ (r.moveTo x y).1.speed = r.speed
    ∧ (r.moveTo x y).1.isActive = r.isActive
    ∧ (r.moveTo x y).1.status = r.status := by
  rw [moveTo_of_active r x y h]
  exact ⟨rfl, rfl, rfl, rfl⟩

/-- Witness for C18: a running arm sent to `(-7, 1000000)`. -/
theorem moveTo_active_witness :
    (RobotArm.mk 0 0 50 true "Running").isActive = true
    ∧ (((RobotArm.mk 0 0 50 true "Running").moveTo (-7) 1000000).1.x,
        ((RobotArm.mk 0 0 50 true "Running").moveTo (-7) 1000000).1.y) = (-7, 1000000)
    ∧ ((RobotArm.mk 0 0 50 true "Running").moveTo (-7) 1000000).1.speed = 50 :=
  ⟨rfl, (moveTo_active (RobotArm.mk 0 0 50 true "Running") (-7) 1000000 rfl).1,
    (moveTo_active (RobotArm.mk 0 0 50 true "Running") (-7) 1000000 rfl).2.1⟩

/-- C19. For every manipulator state, active or not, and every `v` with
`0 ≤ v ≤ 100` (0 and 100 included), `setSpeed(v)` sets the speed to `v` and
leaves the position, the active flag and the status label as they were. -/
theorem setSpeed_in_range (r : RobotArm) (v : Int) (h0 : 0 ≤ v) (h1 : v ≤ 100) :
    (r.setSpeed v).1.speed = v
    ∧ ((r.setSpeed v).1.x, (r.setSpeed v).1.y) = (r.x, r.y)
    ∧ (r.setSpeed v).1.isActive = r.isActive
    ∧ (r.setSpeed v).1.status = r.status := by
  have hc : ¬ ((decide (v < 0) || decide (v > 100)) = true) := by
    simp only [Bool.or_eq_true, decide_eq_true_eq, not_or, not_lt]
    exact ⟨h0, h1⟩
  unfold RobotArm.setSpeed
  rw [if_neg hc]
  exact ⟨rfl, rfl, rfl, rfl⟩

/-- Witness for C19: speed 100 on an inactive arm, speed 0 on an active one. -/
theorem setSpeed_in_range_witness :
    ((0 : Int) ≤ 100 ∧ (100 : Int) ≤ 100)
    ∧ ((RobotArm.mk 3 4 0 false "Idle").setSpeed 100).1.speed = 100
    ∧ ((RobotArm.mk 3 4 0 false "Idle").setSpeed 100).1.isActive = false
    ∧ ((RobotArm.mk 3 4 50 true "Running").setSpeed 0).1.speed = 0 :=
  ⟨⟨by decide, by decide⟩,
    (setSpeed_in_range (RobotArm.mk 3 4 0 false "Idle") 100 (by decide) (by decide)).1,
    (setSpeed_in_range (RobotArm.mk 3 4 0 false "Idle") 100 (by decide) (by decide)).2.2.1,
    (setSpeed_in_range (RobotArm.mk 3 4 50 true "Running") 0 (by decide) (by decide)).1⟩

end RobotArmControl
